import Mathlib

/-
  Shallow embedding of the CBDC risk engine
  (src/cbdcdai/risk/risk_analytics.py and src/cbdcdai/risk/advanced_risk_models.py).

  Python floats are modelled as rationals (every finite float is a rational);
  the one transcendental operation, the sigmoid in
  RiskAnalytics.assess_systemic_risk, is modelled over the reals with Real.exp.
  A numpy NaN that is produced and returned as an ordinary value is modelled as
  the value none of Option Rat; a raised Python exception (ZeroDivisionError on
  plain float division, ValueError from numpy reductions over empty arrays) is
  modelled as Except.error.
-/

deriving instance DecidableEq for Except

namespace CBDC

/-- min(max(x, 0), 1), the clamp used by every scoring function, over Rat. -/
def clampQ (x : ℚ) : ℚ := min (max x 0) 1

/-- min(max(x, 0), 1) over the reals, for the sigmoid-based systemic score. -/
noncomputable def clampR (x : ℝ) : ℝ := min (max x 0) 1

namespace RiskAnalytics

/-- numpy percentile with the default linear interpolation: sort ascending,
take rank q divided by 100 times (n minus 1), and interpolate between the
entries at the floor and ceiling of the rank.  none models the exception numpy
raises on an empty array or on a percentile outside the 0 to 100 range. -/
def npPercentile (a : List ℚ) (q : ℚ) : Option ℚ :=
  if a.isEmpty then none
  else if q < 0 ∨ 100 < q then none
  else
    let s := List.insertionSort (fun x y => x ≤ y) a
    let rank : ℚ := q / 100 * ((a.length : ℚ) - 1)
    let k : ℕ := (Rat.floor rank).toNat
    let kc : ℕ := (Rat.ceil rank).toNat
    some (s.getD k 0 + (rank - (Rat.floor rank : ℚ)) * (s.getD kc 0 - s.getD k 0))

/-- RiskAnalytics.calculate_var: np.percentile(returns, (1 - confidence_level) * 100). -/
def calculate_var (returns : List ℚ) (confidence_level : ℚ) : Option ℚ :=
  npPercentile returns ((1 - confidence_level) * 100)

/-- The percentile as the spec words it (sections 4.1 and 8): sort ascending,
take the rank p divided by 100 times (n minus 1), and linearly interpolate
between the entry at the floor of the rank and the next entry, with the
fractional part of the rank as the weight.  Stated only for comparison with
the numpy-based calculate_var. -/
def specPercentile (a : List ℚ) (p : ℚ) : ℚ :=
  let s := List.insertionSort (fun x y => x ≤ y) a
  let h : ℚ := p / 100 * ((a.length : ℚ) - 1)
  let k : ℕ := (Rat.floor h).toNat
  s.getD k 0 + (h - (Rat.floor h : ℚ)) * (s.getD (k + 1) 0 - s.getD k 0)

/-- RiskAnalytics.calculate_expected_shortfall: np.mean of the returns that are
at most var.  When the selection is empty, numpy returns NaN (modelled none)
as an ordinary value; no exception is raised. -/
def calculate_expected_shortfall (returns : List ℚ) (var : ℚ) : Option ℚ :=
  let sel := returns.filter (fun x => x ≤ var)
  if sel.isEmpty then none
  else some (sel.sum / (sel.length : ℚ))

/-- RiskAnalytics.assess_liquidity_risk.  Plain Python float division raises
ZeroDivisionError when market_cap = 0 or when 1 + bid_ask_spread = 0. -/
def assess_liquidity_risk (trading_volume market_cap bid_ask_spread : ℚ) :
    Except String ℚ :=
  if market_cap = 0 then .error "ZeroDivisionError"
  else if 1 + bid_ask_spread = 0 then .error "ZeroDivisionError"
  else
    let turnover_ratio := trading_volume / market_cap
    let spread_impact := bid_ask_spread / (1 + bid_ask_spread)
    .ok (clampQ (0.7 * (1 - turnover_ratio) + 0.3 * spread_impact))

/-- RiskAnalytics.assess_operational_risk: no division by an input, so total. -/
def assess_operational_risk (system_uptime transaction_volume error_rate : ℚ) : ℚ :=
  let availability_risk := 1 - system_uptime
  let volume_risk := min (transaction_volume / 1000000) 1
  let error_risk := error_rate
  clampQ (0.4 * availability_risk + 0.3 * volume_risk + 0.3 * error_risk)

/-- RiskAnalytics.assess_systemic_risk: size_risk is one minus the logistic
sigmoid of network_size divided by 1000; network_size is a Python int. -/
noncomputable def assess_systemic_risk (network_size : ℤ)
    (concentration_ratio interdependency_score : ℝ) : ℝ :=
  let size_risk : ℝ := 1 - (1 / (1 + Real.exp (-(network_size : ℝ) / 1000)))
  let concentration_risk := concentration_ratio
  let interdependency_risk := interdependency_score
  clampR (0.3 * size_risk + 0.4 * concentration_risk + 0.3 * interdependency_risk)

end RiskAnalytics

namespace AdvancedRiskModels

/-- Pydantic NetworkMetrics record.  centralization is Option Rat because the
source divides by node_count * (node_count - 1), which numpy turns into NaN
(modelled none) for a one-node graph rather than raising. -/
structure NetworkMetrics where
  node_count : ℕ
  edge_count : ℚ
  average_degree : ℚ
  clustering_coefficient : ℚ
  centralization : Option ℚ
  deriving Repr, DecidableEq

/-- Pydantic LiquidityMetrics record. -/
structure LiquidityMetrics where
  trading_volume : ℚ
  bid_ask_spread : ℚ
  market_depth : ℚ
  turnover_ratio : ℚ
  liquidity_ratio : ℚ
  deriving Repr, DecidableEq

/-- Entry i k of the product of two square matrices, as numpy matmul computes it. -/
def matmul {n : ℕ} (A B : Fin n → Fin n → ℚ) : Fin n → Fin n → ℚ :=
  fun i k => ∑ j, A i j * B j k

/-- Trace of a square matrix. -/
def trace {n : ℕ} (A : Fin n → Fin n → ℚ) : ℚ := ∑ i, A i i

/-- AdvancedRiskModels.calculate_network_risk.  The matrix is square by
construction of the type.  For n = 0, np.max of the empty degree array raises
ValueError, so the call fails; for n = 1 the centralization division is 0 / 0,
which numpy evaluates to NaN (modelled none) without raising.  triangles is
trace of the matrix cube divided by 6, exactly as in the source. -/
def calculate_network_risk (n : ℕ) (adjacency_matrix : Fin n → Fin n → ℚ) :
    Except String NetworkMetrics :=
  if h : n = 0 then
    .error "ValueError: zero-size array to reduction operation"
  else
    let node_count := n
    let edge_count : ℚ := (∑ i, ∑ j, adjacency_matrix i j) / 2
    let degrees : Fin n → ℚ := fun i => ∑ j, adjacency_matrix i j
    let average_degree : ℚ := (∑ i, degrees i) / (n : ℚ)
    let triangles : ℚ :=
      trace (matmul (matmul adjacency_matrix adjacency_matrix) adjacency_matrix) / 6
    let possible_triangles : ℚ := (∑ i, degrees i * (degrees i - 1)) / 2
    let clustering_coefficient : ℚ :=
      if possible_triangles > 0 then triangles / possible_triangles else 0
    let max_degree : ℚ :=
      Finset.univ.sup' ⟨⟨0, Nat.pos_of_ne_zero h⟩, Finset.mem_univ _⟩ degrees
    let centralization : Option ℚ :=
      if (node_count : ℚ) * ((node_count : ℚ) - 1) = 0 then none
      else some ((∑ i, (max_degree - degrees i)) / ((node_count : ℚ) * ((node_count : ℚ) - 1)))
    .ok { node_count := node_count
          edge_count := edge_count
          average_degree := average_degree
          clustering_coefficient := clustering_coefficient
          centralization := centralization }

/-- The fields of the conditions dictionary used across the stress-test
pipeline: trading fields consumed by calculate_liquidity_risk, system fields
consumed by assess_operational_risk, plus the fields the statistical module
would read (error_rate appears only in the spec formula of section 4.1). -/
structure Conditions where
  volume : ℚ
  market_cap : ℚ
  spread : ℚ
  depth : ℚ
  uptime : ℚ
  response_time : ℚ
  target_response_time : ℚ
  security_incidents : ℚ
  total_incidents : ℚ
  error_rate : ℚ
  deriving Repr, DecidableEq

/-- AdvancedRiskModels.calculate_liquidity_risk over the conditions record.
Plain float division raises ZeroDivisionError when market_cap = 0. -/
def calculate_liquidity_risk (c : Conditions) : Except String LiquidityMetrics :=
  if c.market_cap = 0 then .error "ZeroDivisionError"
  else
    .ok { trading_volume := c.volume
          bid_ask_spread := c.spread
          market_depth := c.depth
          turnover_ratio := c.volume / c.market_cap
          liquidity_ratio := c.volume * (1 - c.spread) / c.market_cap }

/-- AdvancedRiskModels.assess_operational_risk: availability, performance and
security components; the two divisions raise on a zero denominator. -/
def assess_operational_risk (c : Conditions) : Except String ℚ :=
  if c.target_response_time = 0 then .error "ZeroDivisionError"
  else if c.total_incidents = 0 then .error "ZeroDivisionError"
  else
    let availability_risk := 1 - c.uptime
    let performance_risk := 1 - c.response_time / c.target_response_time
    let security_risk := c.security_incidents / c.total_incidents
    .ok (clampQ (0.4 * availability_risk + 0.3 * performance_risk + 0.3 * security_risk))

/-- AdvancedRiskModels.assess_systemic_risk.  Dividing average_degree by a zero
node_count would raise; a NaN centralization propagates through the weighted
sums and through min and max in CPython, so the result is then NaN (none). -/
def assess_systemic_risk (nm : NetworkMetrics) (lm : LiquidityMetrics)
    (operational_risk : ℚ) : Except String (Option ℚ) :=
  if nm.node_count = 0 then .error "ZeroDivisionError"
  else
    .ok (nm.centralization.map (fun cz =>
      let network_risk := 0.3 * cz + 0.3 * (1 - nm.clustering_coefficient) +
        0.4 * (nm.average_degree / (nm.node_count : ℚ))
      let liquidity_risk := 0.4 * (1 - lm.liquidity_ratio) +
        0.3 * lm.bid_ask_spread + 0.3 * (1 - lm.turnover_ratio)
      clampQ (0.4 * network_risk + 0.3 * liquidity_risk + 0.3 * operational_risk)))

/-- Names of the fields a shock may rescale, mirroring the dictionary keys. -/
inductive CondField where
  | volume | market_cap | spread | depth | uptime
  | response_time | target_response_time | security_incidents
  | total_incidents | error_rate
  deriving Repr, DecidableEq

/-- shocked[key] gets multiplied by (1 + value) for one shock entry. -/
def applyShock (c : Conditions) (f : CondField) (delta : ℚ) : Conditions :=
  match f with
  | .volume => { c with volume := c.volume * (1 + delta) }
  | .market_cap => { c with market_cap := c.market_cap * (1 + delta) }
  | .spread => { c with spread := c.spread * (1 + delta) }
  | .depth => { c with depth := c.depth * (1 + delta) }
  | .uptime => { c with uptime := c.uptime * (1 + delta) }
  | .response_time => { c with response_time := c.response_time * (1 + delta) }
  | .target_response_time => { c with target_response_time := c.target_response_time * (1 + delta) }
  | .security_incidents => { c with security_incidents := c.security_incidents * (1 + delta) }
  | .total_incidents => { c with total_incidents := c.total_incidents * (1 + delta) }
  | .error_rate => { c with error_rate := c.error_rate * (1 + delta) }

/-- The per-scenario shock loop: for key, value in scenario shocks, multiply
the copied conditions entry by (1 + value), in iteration order. -/
def applyShocks (init : Conditions) (shocks : List (CondField × ℚ)) : Conditions :=
  shocks.foldl (fun c kv => applyShock c kv.1 kv.2) init

/-- A stress scenario: a name, a shocks mapping (iteration order preserved),
and an adjacency matrix of some size. -/
structure Scenario where
  name : String
  shocks : List (CondField × ℚ)
  network : (n : ℕ) × (Fin n → Fin n → ℚ)

/-- One row of the stress-test result table. -/
structure Row where
  scenario : String
  network_risk : Option ℚ
  liquidity_risk : ℚ
  operational_risk : ℚ
  systemic_risk : Option ℚ
  deriving Repr, DecidableEq

/-- The body of the stress_test loop for a single scenario: shock the copied
conditions, run the network, liquidity and operational assessments, compose
the systemic score, and record the row. -/
def runScenario (initial_conditions : Conditions) (s : Scenario) :
    Except String Row := do
  let shocked := applyShocks initial_conditions s.shocks
  let nm ← calculate_network_risk s.network.1 s.network.2
  let lm ← calculate_liquidity_risk shocked
  let op ← assess_operational_risk shocked
  let sys ← assess_systemic_risk nm lm op
  .ok { scenario := s.name
        network_risk := nm.centralization
        liquidity_risk := lm.liquidity_ratio
        operational_risk := op
        systemic_risk := sys }

/-- AdvancedRiskModels.stress_test: run the scenarios in order, appending one
row per scenario; a raised exception aborts the whole run (fail fast), exactly
like the Python for loop. -/
def stress_test (initial_conditions : Conditions) :
    List Scenario → Except String (List Row)
  | [] => .ok []
  | s :: rest => do
    let row ← runScenario initial_conditions s
    let rows ← stress_test initial_conditions rest
    .ok (row :: rows)

/-- The same pipeline run directly on the unshocked initial conditions:
the baseline a no-op shock should reproduce. -/
def baselineRun (initial_conditions : Conditions) (name : String)
    (network : (n : ℕ) × (Fin n → Fin n → ℚ)) : Except String Row := do
  let nm ← calculate_network_risk network.1 network.2
  let lm ← calculate_liquidity_risk initial_conditions
  let op ← assess_operational_risk initial_conditions
  let sys ← assess_systemic_risk nm lm op
  .ok { scenario := name
        network_risk := nm.centralization
        liquidity_risk := lm.liquidity_ratio
        operational_risk := op
        systemic_risk := sys }

end AdvancedRiskModels

/-- The complete graph on four nodes: zero diagonal, all other entries one. -/
def K4 : Fin 4 → Fin 4 → ℚ := fun i j => if i = j then 0 else 1

/-- A concrete conditions record used as a running example: zero trading
volume, unit market cap, perfect uptime, half of the target response time
consumed, no security incidents out of one incident, zero error rate. -/
def exInit : AdvancedRiskModels.Conditions :=
  { volume := 0, market_cap := 1, spread := 0, depth := 0, uptime := 1,
    response_time := 1, target_response_time := 2, security_incidents := 0,
    total_incidents := 1, error_rate := 0 }

/-- A scenario with an empty shocks mapping over the complete 4-node graph. -/
def exScenario : AdvancedRiskModels.Scenario :=
  { name := "baseline", shocks := [], network := ⟨4, K4⟩ }

/-- The row the stress test produces for exInit and exScenario. -/
def exRow : AdvancedRiskModels.Row :=
  { scenario := "baseline", network_risk := some 0, liquidity_risk := 0,
    operational_risk := 3/20, systemic_risk := some (91/200) }

end CBDC

open CBDC CBDC.RiskAnalytics CBDC.AdvancedRiskModels

lemma clampQ_nonneg (x : ℚ) : 0 ≤ clampQ x :=
  le_min (le_max_right x 0) zero_le_one

lemma clampQ_le_one (x : ℚ) : clampQ x ≤ 1 :=
  min_le_right _ _

lemma clampR_nonneg (x : ℝ) : 0 ≤ clampR x :=
  le_min (le_max_right x 0) zero_le_one

lemma clampR_le_one (x : ℝ) : clampR x ≤ 1 :=
  min_le_right _ _

lemma K4_degree (i : Fin 4) : (∑ j, K4 i j) = 3 := by
  fin_cases i <;> simp +decide [K4, Fin.sum_univ_four] <;> norm_num

lemma K4_network_eval :
    calculate_network_risk 4 K4 =
      .ok { node_count := 4, edge_count := 6, average_degree := 3,
            clustering_coefficient := 1/3, centralization := some 0 } := by
  simp only [calculate_network_risk, trace, matmul]
  rw [dif_neg (by norm_num : (4:ℕ) ≠ 0)]
  simp only [K4_degree, Finset.sup'_const, Finset.sum_const, Finset.card_univ,
    Fintype.card_fin]
  simp +decide [Fin.sum_univ_four, K4]
  norm_num

lemma stress_test_exInit_eval : stress_test exInit [exScenario] = .ok [exRow] := by
  have hliq : calculate_liquidity_risk exInit =
      .ok { trading_volume := 0, bid_ask_spread := 0, market_depth := 0,
            turnover_ratio := 0, liquidity_ratio := 0 } := by
    norm_num [calculate_liquidity_risk, exInit]
  have hop : AdvancedRiskModels.assess_operational_risk exInit = .ok (3/20) := by
    norm_num [AdvancedRiskModels.assess_operational_risk, exInit, clampQ, min_def, max_def]
  have hsys : AdvancedRiskModels.assess_systemic_risk
      { node_count := 4, edge_count := 6, average_degree := 3,
        clustering_coefficient := 1/3, centralization := some 0 }
      { trading_volume := 0, bid_ask_spread := 0, market_depth := 0,
        turnover_ratio := 0, liquidity_ratio := 0 } (3/20) = .ok (some (91/200)) := by
    norm_num [AdvancedRiskModels.assess_systemic_risk, clampQ, min_def, max_def, Option.map]
  simp only [stress_test, runScenario, exScenario, applyShocks, List.foldl_nil]
  rw [K4_network_eval]
  simp only [bind, Except.bind, hliq, hop, hsys]
  simp [exRow]

lemma stress_test_ok_pointwise (init : Conditions) :
    ∀ (scns : List Scenario) (out : List Row),
      stress_test init scns = .ok out →
      out.length = scns.length ∧
      ∀ i (hi : i < scns.length) (ho : i < out.length),
        runScenario init (scns.get ⟨i, hi⟩) = .ok (out.get ⟨i, ho⟩)
  | [], out, h => by
    simp only [stress_test] at h
    injection h with h
    subst h
    exact ⟨rfl, fun i hi => absurd hi (Nat.not_lt_zero i)⟩
  | s :: rest, out, h => by
    simp only [stress_test, bind, Except.bind] at h
    cases hr : runScenario init s with
    | error e => rw [hr] at h; exact absurd h (by simp)
    | ok row =>
      rw [hr] at h
      cases hrest : stress_test init rest with
      | error e => rw [hrest] at h; exact absurd h (by simp)
      | ok rows =>
        rw [hrest] at h
        injection h with h
        subst h
        obtain ⟨hlen, hidx⟩ := stress_test_ok_pointwise init rest rows hrest
        refine ⟨by simp [hlen], ?_⟩
        intro i hi ho
        match i with
        | 0 => simpa using hr
        | i + 1 =>
          simpa using hidx i (Nat.lt_of_succ_lt_succ hi) (Nat.lt_of_succ_lt_succ ho)

lemma runScenario_ok_operational (init : Conditions) (s : Scenario) (row : Row)
    (h : runScenario init s = .ok row) :
    row.operational_risk =
      clampQ (0.4 * (1 - (applyShocks init s.shocks).uptime)
        + 0.3 * (1 - (applyShocks init s.shocks).response_time
            / (applyShocks init s.shocks).target_response_time)
        + 0.3 * ((applyShocks init s.shocks).security_incidents
            / (applyShocks init s.shocks).total_incidents)) := by
  simp only [runScenario, bind, Except.bind] at h
  cases hn : calculate_network_risk s.network.1 s.network.2 with
  | error e => simp only [hn] at h; exact absurd h (by simp)
  | ok nm =>
    simp only [hn] at h
    cases hl : calculate_liquidity_risk (applyShocks init s.shocks) with
    | error e => simp only [hl] at h; exact absurd h (by simp)
    | ok lm =>
      simp only [hl] at h
      cases hop : AdvancedRiskModels.assess_operational_risk (applyShocks init s.shocks) with
      | error e => simp only [hop] at h; exact absurd h (by simp)
      | ok op =>
        simp only [hop] at h
        cases hsys : AdvancedRiskModels.assess_systemic_risk nm lm op with
        | error e => simp only [hsys] at h; exact absurd h (by simp)
        | ok sys =>
          simp only [hsys] at h
          injection h with h
          subst h
          simp only [AdvancedRiskModels.assess_operational_risk] at hop
          split at hop
          · exact absurd hop (by simp)
          · split at hop
            · exact absurd hop (by simp)
            · injection hop with hop
              exact hop.symm

lemma sigmoid_size_risk_bounds (n : ℤ) (hn : 0 ≤ n) :
    0 < 1 - 1 / (1 + Real.exp (-(n : ℝ) / 1000)) ∧
    1 - 1 / (1 + Real.exp (-(n : ℝ) / 1000)) ≤ 1 / 2 := by
  have he0 : 0 < Real.exp (-(n : ℝ) / 1000) := Real.exp_pos _
  have hn' : (0 : ℝ) ≤ (n : ℝ) := by exact_mod_cast hn
  have he1 : Real.exp (-(n : ℝ) / 1000) ≤ 1 := by
    rw [Real.exp_le_one_iff]
    linarith
  have h1e : (0 : ℝ) < 1 + Real.exp (-(n : ℝ) / 1000) := by linarith
  have hlow : 1 / (1 + Real.exp (-(n : ℝ) / 1000)) < 1 := by
    rw [div_lt_one h1e]
    linarith
  have hhigh : (1 : ℝ) / 2 ≤ 1 / (1 + Real.exp (-(n : ℝ) / 1000)) :=
    one_div_le_one_div_of_le h1e (by linarith)
  constructor <;> linarith

/-- C10: for network_size at least 0 and concentration and interdependency in
the unit interval, the systemic risk score of RiskAnalytics equals the
unclamped weighted sum exactly, and that sum lies between 0 and 0.85, so
neither clamp bound is active. -/
theorem c10_systemic_unclamped (n : ℤ) (c i : ℝ) (hn : 0 ≤ n)
    (hc0 : 0 ≤ c) (hc1 : c ≤ 1) (hi0 : 0 ≤ i) (hi1 : i ≤ 1) :
    RiskAnalytics.assess_systemic_risk n c i =
      0.3 * (1 - 1 / (1 + Real.exp (-(n : ℝ) / 1000))) + 0.4 * c + 0.3 * i ∧
    0 ≤ 0.3 * (1 - 1 / (1 + Real.exp (-(n : ℝ) / 1000))) + 0.4 * c + 0.3 * i ∧
    0.3 * (1 - 1 / (1 + Real.exp (-(n : ℝ) / 1000))) + 0.4 * c + 0.3 * i ≤ 0.85 := by
  obtain ⟨hs0, hs1⟩ := sigmoid_size_risk_bounds n hn
  have h0 : 0 ≤ 0.3 * (1 - 1 / (1 + Real.exp (-(n : ℝ) / 1000))) + 0.4 * c + 0.3 * i := by
    linarith
  have h1 : 0.3 * (1 - 1 / (1 + Real.exp (-(n : ℝ) / 1000))) + 0.4 * c + 0.3 * i ≤ 0.85 := by
    linarith
  refine ⟨?_, h0, h1⟩
  show clampR (0.3 * (1 - 1 / (1 + Real.exp (-(n : ℝ) / 1000))) + 0.4 * c + 0.3 * i) = _
  rw [clampR, max_eq_left h0, min_eq_left (by linarith)]

theorem c10_systemic_unclamped_witness :
    RiskAnalytics.assess_systemic_risk 0 0 0 =
      0.3 * (1 - 1 / (1 + Real.exp (-((0 : ℤ) : ℝ) / 1000))) + 0.4 * 0 + 0.3 * 0 :=
  (c10_systemic_unclamped 0 0 0 le_rfl le_rfl zero_le_one le_rfl zero_le_one).1

/-- C1: the liquidity, operational and systemic scores of RiskAnalytics and
the composite systemic score of AdvancedRiskModels always lie in the closed
unit interval whenever the operation returns a value, for arbitrary inputs,
wildly out-of-range ones included. -/
theorem c1_risk_scores_clamped :
    (∀ v mc s y : ℚ, RiskAnalytics.assess_liquidity_risk v mc s = .ok y →
      0 ≤ y ∧ y ≤ 1) ∧
    (∀ u tv er : ℚ, 0 ≤ RiskAnalytics.assess_operational_risk u tv er ∧
      RiskAnalytics.assess_operational_risk u tv er ≤ 1) ∧
    (∀ (n : ℤ) (c i : ℝ), 0 ≤ RiskAnalytics.assess_systemic_risk n c i ∧
      RiskAnalytics.assess_systemic_risk n c i ≤ 1) ∧
    (∀ (nm : NetworkMetrics) (lm : LiquidityMetrics) (op y : ℚ),
      AdvancedRiskModels.assess_systemic_risk nm lm op = .ok (some y) →
      0 ≤ y ∧ y ≤ 1) := by
  refine ⟨?_, ?_, ?_, ?_⟩
  · intro v mc s y h
    simp only [RiskAnalytics.assess_liquidity_risk] at h
    split at h
    · exact absurd h (by simp)
    · split at h
      · exact absurd h (by simp)
      · injection h with h
        subst h
        exact ⟨clampQ_nonneg _, clampQ_le_one _⟩
  · intro u tv er
    exact ⟨clampQ_nonneg _, clampQ_le_one _⟩
  · intro n c i
    exact ⟨clampR_nonneg _, clampR_le_one _⟩
  · intro nm lm op y h
    simp only [AdvancedRiskModels.assess_systemic_risk] at h
    split at h
    · exact absurd h (by simp)
    · injection h with h
      cases hc : nm.centralization with
      | none => rw [hc] at h; exact absurd h (by simp)
      | some cz =>
        rw [hc] at h
        simp only [Option.map_some'] at h
        injection h with h
        subst h
        exact ⟨clampQ_nonneg _, clampQ_le_one _⟩

theorem c1_risk_scores_clamped_witness :
    ((0 : ℚ) ≤ 7/20 ∧ (7/20 : ℚ) ≤ 1) ∧ ((0 : ℚ) ≤ 41/100 ∧ (41/100 : ℚ) ≤ 1) := by
  constructor
  · exact c1_risk_scores_clamped.1 1 2 0 (7/20)
      (by norm_num [RiskAnalytics.assess_liquidity_risk, clampQ, min_def, max_def])
  · exact c1_risk_scores_clamped.2.2.2
      { node_count := 4, edge_count := 6, average_degree := 3,
        clustering_coefficient := 1/3, centralization := some 0 }
      { trading_volume := 0, bid_ask_spread := 0, market_depth := 0,
        turnover_ratio := 0, liquidity_ratio := 0 } 0 (41/100)
      (by norm_num [AdvancedRiskModels.assess_systemic_risk, clampQ, min_def,
            max_def, Option.map])

/-- C9: whenever some return is at most var, the expected shortfall is defined
and is at most var. -/
theorem c9_expected_shortfall_le_var (returns : List ℚ) (var : ℚ)
    (h : ∃ x ∈ returns, x ≤ var) :
    ∃ y, calculate_expected_shortfall returns var = some y ∧ y ≤ var := by
  obtain ⟨x, hx, hxv⟩ := h
  have hmem : x ∈ returns.filter (fun x => x ≤ var) :=
    List.mem_filter_of_mem hx (by simpa using hxv)
  have hne : returns.filter (fun x => x ≤ var) ≠ [] := by
    intro hnil
    rw [hnil] at hmem
    exact absurd hmem (List.not_mem_nil x)
  have hlen : 0 < (returns.filter (fun x => x ≤ var)).length :=
    List.length_pos.mpr hne
  have hbound : ∀ z ∈ returns.filter (fun x => x ≤ var), z ≤ var := by
    intro z hz
    simpa using List.of_mem_filter hz
  have hsum : (returns.filter (fun x => x ≤ var)).sum ≤
      (returns.filter (fun x => x ≤ var)).length • var :=
    List.sum_le_card_nsmul _ var hbound
  refine ⟨(returns.filter (fun x => x ≤ var)).sum /
      ((returns.filter (fun x => x ≤ var)).length : ℚ), ?_, ?_⟩
  · simp only [calculate_expected_shortfall]
    rw [if_neg (by simp [List.isEmpty_iff, hne])]
  · rw [div_le_iff₀ (by exact_mod_cast hlen)]
    calc (returns.filter (fun x => x ≤ var)).sum
        ≤ (returns.filter (fun x => x ≤ var)).length • var := hsum
      _ = var * ((returns.filter (fun x => x ≤ var)).length : ℚ) := by
          rw [nsmul_eq_mul, mul_comm]

theorem c9_expected_shortfall_le_var_witness :
    ∃ y, calculate_expected_shortfall [0] 0 = some y ∧ y ≤ 0 :=
  c9_expected_shortfall_le_var [0] 0 ⟨0, by simp, le_rfl⟩

/-- C4 counterexample: with returns the singleton 1 and var 0, no return is at
most var and calculate_expected_shortfall returns NaN (modelled none) as an
ordinary value instead of failing with an InvalidInput error. -/
theorem c4_counterexample :
    (∀ x ∈ [(1 : ℚ)], ¬ x ≤ 0) ∧ calculate_expected_shortfall [1] 0 = none := by
  constructor
  · intro x hx
    rw [List.mem_singleton] at hx
    subst hx
    norm_num
  · norm_num [calculate_expected_shortfall, List.filter]

/-- C4 amended: when no return is at most var, calculate_expected_shortfall
returns the NaN value none (numpy mean of an empty selection) rather than
failing with an InvalidInput error. -/
theorem c4_es_nan_on_empty_selection (returns : List ℚ) (var : ℚ)
    (h : ∀ x ∈ returns, var < x) :
    calculate_expected_shortfall returns var = none := by
  have hnil : returns.filter (fun x => x ≤ var) = [] :=
    List.eq_nil_iff_forall_not_mem.mpr (fun x hx =>
      absurd (by simpa using List.of_mem_filter hx)
        (not_le.mpr (h x (List.mem_of_mem_filter hx))))
  simp [calculate_expected_shortfall, hnil]

theorem c4_es_nan_on_empty_selection_witness :
    calculate_expected_shortfall [1] 0 = none :=
  c4_es_nan_on_empty_selection [1] 0 (by intro x hx; rw [List.mem_singleton] at hx; subst hx; norm_num)

lemma rat_floor_eq_intFloor (q : ℚ) : Rat.floor q = ⌊q⌋ :=
  (Rat.floor_def' q).trans Rat.floor_def.symm

lemma npPercentile_eq_spec (a : List ℚ) (q : ℚ) (hne : a ≠ [])
    (h0 : 0 ≤ q) (h100 : q ≤ 100) :
    npPercentile a q = some (specPercentile a q) := by
  simp only [npPercentile, specPercentile]
  rw [if_neg (by simp [List.isEmpty_iff, hne]),
      if_neg (by simp only [not_or, not_lt]; exact ⟨h0, h100⟩)]
  congr 1
  have hlen : (1 : ℚ) ≤ (a.length : ℚ) := by
    have := List.length_pos.mpr hne
    exact_mod_cast this
  have hrank0 : 0 ≤ q / 100 * ((a.length : ℚ) - 1) :=
    mul_nonneg (div_nonneg h0 (by norm_num)) (by linarith)
  by_cases hden : (q / 100 * ((a.length : ℚ) - 1)).den = 1
  · have hfl : ((Rat.floor (q / 100 * ((a.length : ℚ) - 1))) : ℚ) =
        q / 100 * ((a.length : ℚ) - 1) := by
      simp only [Rat.floor, if_pos hden]
      exact Rat.coe_int_num_of_den_eq_one hden
    rw [hfl]
    ring
  · have hceil : Rat.ceil (q / 100 * ((a.length : ℚ) - 1)) =
        Rat.floor (q / 100 * ((a.length : ℚ) - 1)) + 1 := by
      simp only [Rat.floor, Rat.ceil, if_neg hden]
    have hflnn : 0 ≤ Rat.floor (q / 100 * ((a.length : ℚ) - 1)) := by
      rw [rat_floor_eq_intFloor]
      exact Int.floor_nonneg.mpr hrank0
    have htn : (Rat.ceil (q / 100 * ((a.length : ℚ) - 1))).toNat =
        (Rat.floor (q / 100 * ((a.length : ℚ) - 1))).toNat + 1 := by
      rw [hceil]
      omega
    rw [htn]

/-- C3: calculate_var agrees with the standard linear-interpolation percentile
at level (1 - confidence) times 100 on every non-empty series, and on the
fixed five-element series at confidence 0.8 it returns exactly -13/500,
the 20th linear-interpolation percentile -0.026. -/
theorem c3_var_is_percentile :
    (∀ (a : List ℚ) (c : ℚ), a ≠ [] → 0 < c → c < 1 →
      calculate_var a c = some (specPercentile a ((1 - c) * 100))) ∧
    calculate_var [-1/20, -1/50, 0, 1/100, 3/100] (4/5) = some (-13/500) ∧
    specPercentile [-1/20, -1/50, 0, 1/100, 3/100] ((1 - 4/5) * 100) = -13/500 := by
  refine ⟨?_, ?_, ?_⟩
  · intro a c hne hc0 hc1
    exact npPercentile_eq_spec a ((1 - c) * 100) hne
      (by nlinarith) (by nlinarith)
  · norm_num [calculate_var, npPercentile, List.insertionSort, List.orderedInsert,
      Rat.floor, Rat.ceil]
  · norm_num [specPercentile, List.insertionSort, List.orderedInsert, Rat.floor]

theorem c3_var_is_percentile_witness :
    calculate_var [-1/20, -1/50, 0, 1/100, 3/100] (4/5) =
      some (specPercentile [-1/20, -1/50, 0, 1/100, 3/100] ((1 - 4/5) * 100)) :=
  c3_var_is_percentile.1 [-1/20, -1/50, 0, 1/100, 3/100] (4/5)
    (by simp) (by norm_num) (by norm_num)

lemma one_node_network_eval :
    calculate_network_risk 1 (fun _ _ => (0:ℚ)) =
      .ok { node_count := 1, edge_count := 0, average_degree := 0,
            clustering_coefficient := 0, centralization := none } := by
  simp only [calculate_network_risk, trace, matmul]
  rw [dif_neg (by norm_num : (1:ℕ) ≠ 0)]
  norm_num [Finset.univ_unique, Finset.sum_singleton, Finset.sup'_singleton]

/-- C5 counterexample: for the one-node graph the network-risk operation does
not fail at all: it returns a metrics record whose centralization is the NaN
value none coming from the 0 / 0 division. -/
theorem c5_counterexample :
    calculate_network_risk 1 (fun _ _ => (0:ℚ)) =
      .ok { node_count := 1, edge_count := 0, average_degree := 0,
            clustering_coefficient := 0, centralization := none } :=
  one_node_network_eval

/-- C5 amended: only the empty graph makes the network-risk operation fail
(numpy max over an empty degree array raises); a one-node graph succeeds and
yields a NaN centralization (none) without any InvalidInput guard. -/
theorem c5_network_risk_small_graphs :
    (∀ A : Fin 0 → Fin 0 → ℚ, ∃ e, calculate_network_risk 0 A = .error e) ∧
    (∀ A : Fin 1 → Fin 1 → ℚ, ∃ nm, calculate_network_risk 1 A = .ok nm ∧
      nm.node_count = 1 ∧ nm.centralization = none) := by
  constructor
  · intro A
    exact ⟨_, rfl⟩
  · intro A
    refine ⟨_, rfl, rfl, ?_⟩
    show (if ((1:ℕ) : ℚ) * (((1:ℕ) : ℚ) - 1) = 0 then none
      else some ((∑ i, ((Finset.univ.sup' ⟨⟨0, Nat.pos_of_ne_zero one_ne_zero⟩,
        Finset.mem_univ _⟩ fun i => ∑ j, A i j) - ∑ j, A i j)) /
          (((1:ℕ) : ℚ) * (((1:ℕ) : ℚ) - 1)))) = none
    norm_num

/-- C6 counterexample: on the complete 4-node graph the clustering coefficient
the code computes is not 1. -/
theorem c6_counterexample :
    ∃ nm, calculate_network_risk 4 K4 = .ok nm ∧ nm.clustering_coefficient ≠ 1 := by
  refine ⟨_, K4_network_eval, ?_⟩
  norm_num

/-- C6 amended: on the complete 4-node graph the operation returns node_count
4, edge_count 6, average_degree 3, centralization 0, and clustering
coefficient 1/3 (the formula divides triangle count 4 by connected-triple
count 12 without the conventional factor of three). -/
theorem c6_k4_network_metrics :
    calculate_network_risk 4 K4 =
      .ok { node_count := 4, edge_count := 6, average_degree := 3,
            clustering_coefficient := 1/3, centralization := some 0 } :=
  K4_network_eval

/-- C7: whenever the network-risk operation succeeds, the clustering
coefficient equals triangles divided by possible triangles when the latter is
positive and is 0 when it is zero, so the division is always guarded. -/
theorem c7_clustering_guard (n : ℕ) (A : Fin n → Fin n → ℚ) (nm : NetworkMetrics)
    (h : calculate_network_risk n A = .ok nm) :
    ((∑ i, (∑ j, A i j) * ((∑ j, A i j) - 1)) / 2 > 0 →
      nm.clustering_coefficient =
        trace (matmul (matmul A A) A) / 6 /
          ((∑ i, (∑ j, A i j) * ((∑ j, A i j) - 1)) / 2)) ∧
    ((∑ i, (∑ j, A i j) * ((∑ j, A i j) - 1)) / 2 = 0 →
      nm.clustering_coefficient = 0) := by
  simp only [calculate_network_risk] at h
  split at h
  · exact absurd h (by simp)
  · injection h with h
    subst h
    constructor
    · intro hpos
      show (if _ > 0 then _ else _) = _
      rw [if_pos hpos]
    · intro hzero
      show (if _ > 0 then _ else _) = _
      rw [if_neg (by rw [hzero]; exact lt_irrefl 0)]

theorem c7_clustering_guard_witness :
    (({ node_count := 1, edge_count := 0, average_degree := 0,
        clustering_coefficient := 0, centralization := none } :
      NetworkMetrics)).clustering_coefficient = 0 := by
  refine (c7_clustering_guard 1 (fun _ _ => 0) _ one_node_network_eval).2 ?_
  norm_num [Finset.univ_unique, Finset.sum_singleton]

/-- C8: rows of the stress-test result appear in exactly the order of the
input scenarios (row i comes from scenario i), and a scenario whose shocks
mapping is empty runs the pipeline on the unshocked initial conditions. -/
theorem c8_stress_order_and_noop :
    (∀ (init : Conditions) (scns : List Scenario) (out : List Row),
      stress_test init scns = .ok out →
      out.length = scns.length ∧
      ∀ i (hi : i < scns.length) (ho : i < out.length),
        runScenario init (scns.get ⟨i, hi⟩) = .ok (out.get ⟨i, ho⟩)) ∧
    (∀ (init : Conditions) (s : Scenario), s.shocks = [] →
      runScenario init s = baselineRun init s.name s.network) := by
  constructor
  · exact stress_test_ok_pointwise
  · intro init s hs
    simp only [runScenario, baselineRun, applyShocks, hs, List.foldl_nil]

theorem c8_stress_order_and_noop_witness :
    ([exRow].length = [exScenario].length ∧
      runScenario exInit exScenario = .ok exRow) ∧
    runScenario exInit exScenario = baselineRun exInit exScenario.name exScenario.network := by
  have h := c8_stress_order_and_noop
  refine ⟨⟨(h.1 exInit [exScenario] [exRow] stress_test_exInit_eval).1, ?_⟩,
    h.2 exInit exScenario rfl⟩
  have h2 := (h.1 exInit [exScenario] [exRow] stress_test_exInit_eval).2 0
    (by norm_num) (by norm_num)
  simpa using h2

/-- C2 counterexample: for a concrete run the stress test reports operational
risk 3/20 (the advanced formula with response-time and incident terms), while
the section 4.1 operational-risk formula on the same shocked conditions gives
0, so the two formulas disagree. -/
theorem c2_counterexample :
    stress_test exInit [exScenario] = .ok [exRow] ∧
    exRow.operational_risk = 3/20 ∧
    RiskAnalytics.assess_operational_risk
      (applyShocks exInit exScenario.shocks).uptime
      (applyShocks exInit exScenario.shocks).volume
      (applyShocks exInit exScenario.shocks).error_rate = 0 ∧
    (3/20 : ℚ) ≠ 0 := by
  refine ⟨stress_test_exInit_eval, rfl, ?_, by norm_num⟩
  norm_num [RiskAnalytics.assess_operational_risk, applyShocks, exScenario, exInit,
    List.foldl_nil, clampQ, min_def, max_def]

/-- C2 amended: every row of a successful stress test carries the operational
risk computed by the advanced formula, the clamp of 0.4 times (1 - uptime)
plus 0.3 times (1 - response_time / target_response_time) plus 0.3 times
(security_incidents / total_incidents), evaluated on the shocked conditions of
its scenario, not the section 4.1 formula. -/
theorem c2_stress_operational_formula (init : Conditions) (scns : List Scenario)
    (out : List Row) (h : stress_test init scns = .ok out) :
    ∀ i (hi : i < scns.length) (ho : i < out.length),
      (out.get ⟨i, ho⟩).operational_risk =
        clampQ (0.4 * (1 - (applyShocks init (scns.get ⟨i, hi⟩).shocks).uptime)
          + 0.3 * (1 - (applyShocks init (scns.get ⟨i, hi⟩).shocks).response_time
              / (applyShocks init (scns.get ⟨i, hi⟩).shocks).target_response_time)
          + 0.3 * ((applyShocks init (scns.get ⟨i, hi⟩).shocks).security_incidents
              / (applyShocks init (scns.get ⟨i, hi⟩).shocks).total_incidents)) := by
  intro i hi ho
  exact runScenario_ok_operational init _ _
    ((stress_test_ok_pointwise init scns out h).2 i hi ho)

theorem c2_stress_operational_formula_witness :
    exRow.operational_risk =
      clampQ (0.4 * (1 - (applyShocks exInit exScenario.shocks).uptime)
        + 0.3 * (1 - (applyShocks exInit exScenario.shocks).response_time
            / (applyShocks exInit exScenario.shocks).target_response_time)
        + 0.3 * ((applyShocks exInit exScenario.shocks).security_incidents
            / (applyShocks exInit exScenario.shocks).total_incidents)) := by
  have h := c2_stress_operational_formula exInit [exScenario] [exRow]
    stress_test_exInit_eval 0 (by norm_num) (by norm_num)
  simpa using h
